import Mathlib

/-!
Shallow embedding of the DIRT DICOM viewer core (src/website/dirt/dirt.py,
class DICOMViewer).  Pixel intensities and ROI coordinates are modelled as
exact rationals; the Python code computes with numpy float32/float64, and all
concrete inputs used in the theorems below are chosen to be exactly
representable, so the rational model agrees with the float computation there.
Qt widgets are modelled by the values they hold: a slider by its integer
value (QAbstractSlider.setValue clamps to the slider range), the subtraction
combo box by the integer currentIndex() - 1, the result table by its rows of
cell strings, and the roi_data dict by an association list with Python dict
insert-or-overwrite semantics.
-/

attribute [local semireducible] Rat.add Rat.mul Rat.sub Rat.inv

deriving instance DecidableEq for Except

/-- Python int() truncation toward zero, as applied to a float. -/
def pyInt (q : ℚ) : ℤ := if 0 ≤ q then ⌊q⌋ else ⌈q⌉

/-- Python str.strip(): remove leading and trailing whitespace. -/
def pyStrip (s : String) : String :=
  String.mk (((s.data.dropWhile Char.isWhitespace).reverse.dropWhile Char.isWhitespace).reverse)

/-- numpy astype(np.uint8) on a float value: truncation toward zero, then
wraparound modulo 256. -/
def uint8cast (q : ℚ) : ℤ := pyInt q % 256

/-- A 2D image frame, row major (shape height x width). -/
abbrev Frame := List (List ℚ)

/-- Pixel read frame[i][j] (always used in bounds by the viewer code). -/
def px (f : Frame) (i j : ℕ) : ℚ := (f.getD i []).getD j 0

/-- Elementwise difference of two frames (numpy a - b). -/
def frameSub (a b : Frame) : Frame :=
  List.zipWith (fun ra rb => List.zipWith (fun x y => x - y) ra rb) a b

/-- Row-major flattening of a frame (numpy ravel order). -/
def flat (f : Frame) : List ℚ := f.foldr (fun r acc => r ++ acc) []

/-- Insert a value into a sorted list, keeping it sorted. -/
def insertSorted (x : ℚ) : List ℚ → List ℚ
  | [] => [x]
  | y :: ys => if x ≤ y then x :: y :: ys else y :: insertSorted x ys

/-- Ascending sort of a list of rationals. -/
def sortQ (l : List ℚ) : List ℚ := l.foldr insertSorted []

/-- np.percentile with the default linear interpolation: the virtual index is
h = q/100 * (n-1), and the result interpolates between the sorted values at
positions floor h and floor h + 1. -/
def percentile (xs : List ℚ) (q : ℚ) : ℚ :=
  let s := sortQ xs
  let n := s.length
  let h := q / 100 * ((n : ℚ) - 1)
  let i := (⌊h⌋).toNat
  let a := s.getD i 0
  let b := s.getD (i + 1) a
  a + (h - (i : ℚ)) * (b - a)

/-- numpy ndarray.mean of a nonempty value list. -/
def mean (l : List ℚ) : ℚ := l.sum / l.length

/-- Python min of a nonempty list (0 on the empty list, on which the Python
call raises ValueError instead). -/
def listMin : List ℚ → ℚ
  | [] => 0
  | x :: xs => xs.foldl min x

/-- Python max of a nonempty list (0 on the empty list). -/
def listMax : List ℚ → ℚ
  | [] => 0
  | x :: xs => xs.foldl max x

/-- Circular mask test of dirt.py lines 471-474 / 531-534: within the d x d
bounding box, offset (x, y) is selected iff
sqrt((x - r)^2 + (y - r)^2) <= r with r = d/2.  Since both sides are
nonnegative, the square-root comparison is embedded as the equivalent
comparison of squares. -/
def maskMem (d x y : ℕ) : Bool :=
  let r : ℚ := (d : ℚ) / 2
  decide (((x : ℚ) - r) * ((x : ℚ) - r) + ((y : ℚ) - r) * ((y : ℚ) - r) ≤ r * r)

/-- The selected offsets of the mask in numpy boolean-indexing order
(row major: y outer, x inner). -/
def maskPoints (d : ℕ) : List (ℕ × ℕ) :=
  (List.range d).flatMap (fun y =>
    (List.range d).filterMap (fun x => if maskMem d x y then some (x, y) else none))

/-- roi_data[mask] of dirt.py lines 469/476 and 529/536: the pixel values of
frame img selected by the circular mask of the bounding box whose top-left
corner is (xs, ys). -/
def maskedVals (img : Frame) (xs ys d : ℕ) : List ℚ :=
  (maskPoints d).map (fun p => px img (ys + p.2) (xs + p.1))

/-- Left-pad a digit string with zeros to width k. -/
def padZeros (k : ℕ) (s : String) : String :=
  String.mk (List.replicate (k - s.length) '0') ++ s

/-- Render a rational with exactly k decimal digits (truncating the exact
value; all uses in the viewer are exactly representable). -/
def decStr (q : ℚ) (k : ℕ) : String :=
  let sign := if q < 0 then "-" else ""
  let m := (⌊|q| * (10 : ℚ) ^ k⌋).toNat
  sign ++ toString (m / 10 ^ k) ++ "." ++ padZeros k (toString (m % 10 ^ k))

/-- Python str() of a float value: the shortest decimal rendering, with at
least one fractional digit (e.g. str(10.0) = "10.0", str(1.05) = "1.05").
Faithful for values with an exact short decimal expansion, which covers
every value the theorems below apply it to. -/
def pyFloatStr (q : ℚ) : String :=
  let k := ((List.range 18).find? (fun k => (q * (10 : ℚ) ^ k).den = 1)).getD 17
  decStr q (max k 1)

/-- Python format .2f: two decimal digits, rounding the exact value to the
nearest hundredth (half up; all values it is applied to in the theorems are
exact hundredths, where every rounding convention agrees). -/
def format2 (q : ℚ) : String :=
  let sign := if q < 0 then "-" else ""
  let m := (⌊|q| * 100 + 1/2⌋).toNat
  sign ++ toString (m / 100) ++ "." ++ padZeros 2 (toString (m % 100))

/-- Table cell for one per-slice ROI value, dirt.py line 564:
f-string .2f for a defined value, the literal text NaN otherwise. -/
def cellStr : Option ℚ → String
  | some q => format2 q
  | none => "NaN"

/-- Python dict assignment d[k] = x on an association list: overwrite the
entry for k in place if present, else append. -/
def dictInsert {α : Type} : List (String × α) → String → α → List (String × α)
  | [], k, x => [(k, x)]
  | p :: m, k, x => if p.1 == k then (k, x) :: m else p :: dictInsert m k x

/-- Python dict lookup d.get(k) on an association list. -/
def dictGet? {α : Type} : List (String × α) → String → Option α
  | [], _ => none
  | p :: m, k => if p.1 == k then some p.2 else dictGet? m k

/-- The mutable state of the DICOMViewer that the claims concern: the loaded
stack, the slider/combo/checkbox/input values, and the ROI registry
(roi_data dict plus result table rows). -/
structure Viewer where
  images : List Frame
  currentSlice : ℕ
  subtractionIndex : ℤ
  windowVal : ℤ
  levelVal : ℤ
  overlay : Bool
  roiNameInput : String
  roiCenterX : ℚ
  roiCenterY : ℚ
  roiDiameter : ℕ
  roi_data : List (String × List (Option ℚ))
  table : List (List String)
  deriving DecidableEq

/-- images.shape[1], derived from the stacked array as in dirt.py line 461. -/
def Viewer.height (v : Viewer) : ℕ := (v.images.getD 0 []).length

/-- images.shape[2], derived from the stacked array as in dirt.py line 461. -/
def Viewer.width (v : Viewer) : ℕ := ((v.images.getD 0 []).getD 0 []).length

/-- QAbstractSlider.setValue: the stored value is clamped to the slider
range. -/
def sliderSet (lo hi x : ℤ) : ℤ := max lo (min hi x)

/-- The bounding-box rejection test of dirt.py lines 456-462 and 511-517:
x_start = int(center.x - radius), y_start = int(center.y - radius), and the
ROI is rejected when x_start < 0, y_start < 0, x_start + diameter > width or
y_start + diameter > height. -/
def boundsViolated (v : Viewer) : Bool :=
  let r : ℚ := (v.roiDiameter : ℚ) / 2
  let xs := pyInt (v.roiCenterX - r)
  let ys := pyInt (v.roiCenterY - r)
  decide (xs < 0) || decide (ys < 0) ||
    decide ((v.width : ℤ) < xs + (v.roiDiameter : ℤ)) ||
    decide ((v.height : ℤ) < ys + (v.roiDiameter : ℤ))

/-- Window/level mapping of one pixel, dirt.py lines 377-392: clip to
[level - window/2, level + window/2], normalize by
(clipped - lower)/(upper - lower) * 255 when the window range is nonzero
(else clipped - lower), then cast to uint8. -/
def windowPixel (w l p : ℚ) : ℤ :=
  let lower := l - w / 2
  let upper := l + w / 2
  let c := min (max p lower) upper
  let n := if upper - lower ≠ 0 then (c - lower) / (upper - lower) * 255 else c - lower
  uint8cast n

/-- The frame shown by display_slice (dirt.py lines 364-375): the elementwise
difference when a subtraction image is selected and in range, with fallback
to the raw slice when the selection is out of range. -/
def displayFrame (v : Viewer) : Frame :=
  if 0 ≤ v.subtractionIndex then
    if (v.images.length : ℤ) ≤ v.subtractionIndex then v.images.getD v.currentSlice []
    else frameSub (v.images.getD v.currentSlice []) (v.images.getD v.subtractionIndex.toNat [])
  else v.images.getD v.currentSlice []

/-- The rendered 8-bit image of display_slice, dirt.py lines 353-392. -/
def display_slice (v : Viewer) : List (List ℤ) :=
  (displayFrame v).map (fun row => row.map (windowPixel (v.windowVal : ℚ) (v.levelVal : ℚ)))

/-- Absolute values of the elementwise difference between the current slice
and the selected subtraction image, dirt.py lines 289-294. -/
def absDiffVals (v : Viewer) : List ℚ :=
  (flat (frameSub (v.images.getD v.currentSlice []) (v.images.getD v.subtractionIndex.toNat []))).map
    (fun q => |q|)

/-- auto_window, dirt.py lines 278-317.  Subtraction mode (combo index - 1
nonnegative): window = 2 * max(p95, |p5|) of abs(difference), level = 0;
normal mode: window = p97.5 - p2.5 of the raw slice, level = their midpoint.
Both values pass through int() truncation and slider clamping (setValue). -/
def auto_window (v : Viewer) : Viewer :=
  if 0 ≤ v.subtractionIndex then
    let lo := percentile (absDiffVals v) 5
    let hi := percentile (absDiffVals v) 95
    let ow := 2 * max hi |lo|
    { v with windowVal := sliderSet 1 4096 (pyInt ow),
             levelVal := sliderSet (-4096) 4096 (pyInt 0) }
  else
    let a := flat (v.images.getD v.currentSlice [])
    let lo := percentile a (5 / 2)
    let hi := percentile a (195 / 2)
    { v with windowVal := sliderSet 1 4096 (pyInt (hi - lo)),
             levelVal := sliderSet (-4096) 4096 (pyInt ((hi + lo) / 2)) }

/-- Failure modes of the ROI operations: hidden overlay, empty name, bounding
box out of bounds, empty circular mask (analyze), and the uncaught ValueError
raised by min() of an empty sequence in save_roi when no slice has a defined
value. -/
inductive RoiErr where
  | hidden
  | invalidName
  | outOfBounds
  | emptyMask
  | aggregateEmpty
  deriving DecidableEq

/-- analyze_roi, dirt.py lines 444-491: overlay check, bounding-box check,
then max/min/difference of the circular mask on the raw current slice (no
subtraction is applied). -/
def analyze_roi (v : Viewer) : Except RoiErr (ℚ × ℚ × ℚ) :=
  if v.overlay = false then .error .hidden
  else if boundsViolated v then .error .outOfBounds
  else
    let r : ℚ := (v.roiDiameter : ℚ) / 2
    let xs := (pyInt (v.roiCenterX - r)).toNat
    let ys := (pyInt (v.roiCenterY - r)).toNat
    let mv := maskedVals (v.images.getD v.currentSlice []) xs ys v.roiDiameter
    if mv = [] then .error .emptyMask
    else .ok (listMax mv, listMin mv, listMax mv - listMin mv)

/-- The per-slice value list computed by the save_roi loop, dirt.py lines
522-544: for every slice the circular-mask values of the raw frame, np.nan
(modelled as none) when the mask is empty, the mask mean otherwise. -/
def roiValues (v : Viewer) : List (Option ℚ) :=
  let r : ℚ := (v.roiDiameter : ℚ) / 2
  let xs := (pyInt (v.roiCenterX - r)).toNat
  let ys := (pyInt (v.roiCenterY - r)).toNat
  v.images.map (fun img =>
    let mv := maskedVals img xs ys v.roiDiameter
    if mv = [] then none else some (mean mv))

/-- The table row written by save_roi, dirt.py lines 552-565: name, then
str() of min, max and difference over the defined values, then one .2f/NaN
cell per slice. -/
def saveRow (name : String) (vals : List (Option ℚ)) : List String :=
  let defined := vals.filterMap id
  let mn := listMin defined
  let mx := listMax defined
  [name, pyFloatStr mn, pyFloatStr mx, pyFloatStr (mx - mn)] ++ vals.map cellStr

/-- save_roi, dirt.py lines 493-568: overlay check, stripped-name check,
bounding-box check; then the per-slice loop, the roi_data dict assignment
(line 547, before any aggregation), and finally min/max/difference and the
table row.  When every slice is undefined the min() call raises ValueError
(modelled as aggregateEmpty) after roi_data was already updated, so the table
row is never written in that case. -/
def save_roi (v : Viewer) : Except RoiErr Unit × Viewer :=
  if v.overlay = false then (.error .hidden, v)
  else
    let name := pyStrip v.roiNameInput
    if name = "" then (.error .invalidName, v)
    else if boundsViolated v then (.error .outOfBounds, v)
    else
      let vals := roiValues v
      let v' := { v with roi_data := dictInsert v.roi_data name vals }
      if vals.filterMap id = [] then (.error .aggregateEmpty, v')
      else (.ok (), { v' with table := v'.table ++ [saveRow name vals] })

/-- CSV header row of save_to_csv, dirt.py lines 597-598. -/
def csvHeaders (n : ℕ) : List String :=
  ["Name", "Min Value", "Max Value", "Difference"] ++
    (List.range n).map (fun i => "Slice" ++ toString i)

/-- The rows written by save_to_csv, dirt.py lines 596-611: the header row
followed by the text of every table row exactly as save_roi wrote it. -/
def save_to_csv (v : Viewer) : List (List String) := csvHeaders v.images.length :: v.table

/-- Modelled from the spec: the glossary entry "Subtraction mode:
display/analysis mode where one frame is subtracted from another before
windowing or statistics" promises ROI statistics on the elementwise
difference; this variant of analyze_roi takes its mask values from the
difference image whenever the subtraction index is valid.  It exists only to
be compared against the source-derived analyze_roi. -/
def analyze_roi_subtractedSpec (v : Viewer) : Except RoiErr (ℚ × ℚ × ℚ) :=
  if v.overlay = false then .error .hidden
  else if boundsViolated v then .error .outOfBounds
  else
    let r : ℚ := (v.roiDiameter : ℚ) / 2
    let xs := (pyInt (v.roiCenterX - r)).toNat
    let ys := (pyInt (v.roiCenterY - r)).toNat
    let img :=
      if 0 ≤ v.subtractionIndex ∧ v.subtractionIndex < (v.images.length : ℤ) then
        frameSub (v.images.getD v.currentSlice []) (v.images.getD v.subtractionIndex.toNat [])
      else v.images.getD v.currentSlice []
    let mv := maskedVals img xs ys v.roiDiameter
    if mv = [] then .error .emptyMask
    else .ok (listMax mv, listMin mv, listMax mv - listMin mv)

/-- The out-of-bounds predicate exactly as claim C4 words it: the
integer-truncated bounding box [center.x - r, center.x + r) x
[center.y - r, center.y + r) exceeds the frame dimensions on the left, top,
right or bottom side. -/
def claimBoxExceeds (v : Viewer) : Prop :=
  pyInt (v.roiCenterX - (v.roiDiameter : ℚ) / 2) < 0 ∨
  pyInt (v.roiCenterY - (v.roiDiameter : ℚ) / 2) < 0 ∨
  (v.width : ℤ) < pyInt (v.roiCenterX + (v.roiDiameter : ℚ) / 2) ∨
  (v.height : ℤ) < pyInt (v.roiCenterY + (v.roiDiameter : ℚ) / 2)

instance (v : Viewer) : Decidable (claimBoxExceeds v) := by
  unfold claimBoxExceeds; infer_instance

/-- Two-slice stack of 2x2 frames with a diameter-1 ROI whose circular mask
is empty on every slice, a non-empty name and an in-bounds bounding box. -/
def vC1 : Viewer :=
  { images := [[[5, 5], [5, 5]], [[7, 7], [7, 7]]],
    currentSlice := 0, subtractionIndex := -1, windowVal := 128, levelVal := 128,
    overlay := true, roiNameInput := "A",
    roiCenterX := 1, roiCenterY := 1, roiDiameter := 1,
    roi_data := [], table := [] }

/-- A three-slice viewer whose registry holds one ROI named Bone with
per-slice values [10.0, NaN, 30.0], exactly as claim C2 describes, with the
table row that save_roi would have written for it. -/
def vC2 : Viewer :=
  { images := [[[10]], [[20]], [[30]]],
    currentSlice := 0, subtractionIndex := -1, windowVal := 128, levelVal := 128,
    overlay := true, roiNameInput := "Bone",
    roiCenterX := 0, roiCenterY := 0, roiDiameter := 1,
    roi_data := [("Bone", [some 10, none, some 30])],
    table := [saveRow "Bone" [some 10, none, some 30]] }

/-- Two-slice stack with the second slice selected for subtraction and a
diameter-2 ROI covering offsets (1,0), (0,1), (1,1) of each 2x2 frame; the
raw slice 0 and the difference slice 0 - slice 1 have different ROI
statistics. -/
def vC3 : Viewer :=
  { images := [[[0, 1], [2, 3]], [[0, 10], [0, 0]]],
    currentSlice := 0, subtractionIndex := 1, windowVal := 128, levelVal := 128,
    overlay := true, roiNameInput := "C",
    roiCenterX := 1, roiCenterY := 1, roiDiameter := 2,
    roi_data := [], table := [] }

/-- The 256x256 frame of claim C4 with ROI center (10,128) and diameter 50,
whose bounding box starts at x = -15. -/
def vC4 : Viewer :=
  { images := [List.replicate 256 (List.replicate 256 (0 : ℚ))],
    currentSlice := 0, subtractionIndex := -1, windowVal := 128, levelVal := 128,
    overlay := true, roiNameInput := "B",
    roiCenterX := 10, roiCenterY := 128, roiDiameter := 50,
    roi_data := [], table := [] }

/-- A single 2x2 frame with intensities on both sides of the display window,
used to instantiate the display-transform range property. -/
def vC5 : Viewer :=
  { images := [[[-12, 500], [63, 128]]],
    currentSlice := 0, subtractionIndex := -1, windowVal := 128, levelVal := 128,
    overlay := true, roiNameInput := "",
    roiCenterX := 1, roiCenterY := 1, roiDiameter := 1,
    roi_data := [], table := [] }

/-- Three-slice stack with a diameter-1 ROI: the circular mask is empty on
every slice, so save_roi records undefined everywhere and then aborts. -/
def vC6 : Viewer :=
  { images := [[[1, 1], [1, 1]], [[2, 2], [2, 2]], [[3, 3], [3, 3]]],
    currentSlice := 0, subtractionIndex := -1, windowVal := 128, levelVal := 128,
    overlay := true, roiNameInput := "A",
    roiCenterX := 1, roiCenterY := 1, roiDiameter := 1,
    roi_data := [], table := [] }

/-- Two single-row frames whose difference has absolute values [1, 2]:
the 5th/95th percentiles are 1.05 and 1.95, so the exact auto-window value
2 * max(p95, |p5|) = 3.9 is not an integer. -/
def vC8 : Viewer :=
  { images := [[[1, 2]], [[0, 0]]],
    currentSlice := 0, subtractionIndex := 1, windowVal := 128, levelVal := 128,
    overlay := true, roiNameInput := "",
    roiCenterX := 0, roiCenterY := 0, roiDiameter := 1,
    roi_data := [], table := [] }

/-- A viewer whose registry already holds an entry named R, about to save a
diameter-2 ROI under the same name R. -/
def vC9 : Viewer :=
  { images := [[[4, 4], [4, 4]]],
    currentSlice := 0, subtractionIndex := -1, windowVal := 128, levelVal := 128,
    overlay := true, roiNameInput := "R",
    roiCenterX := 1, roiCenterY := 1, roiDiameter := 2,
    roi_data := [("R", [some 1])], table := [["R", "1.0", "1.0", "0.0", "1.00"]] }

/-- A single-slice stack with a diameter-1 ROI, in bounds and named. -/
def vC10 : Viewer :=
  { images := [[[6, 6], [6, 6]]],
    currentSlice := 0, subtractionIndex := -1, windowVal := 128, levelVal := 128,
    overlay := true, roiNameInput := "D",
    roiCenterX := 1, roiCenterY := 1, roiDiameter := 1,
    roi_data := [], table := [] }

theorem dictGet?_insert_self {α : Type} (m : List (String × α)) (k : String) (x : α) :
    dictGet? (dictInsert m k x) k = some x := by
  induction m with
  | nil => simp [dictInsert, dictGet?]
  | cons p m ih =>
    by_cases h : p.1 = k
    · simp [dictInsert, dictGet?, h]
    · simp [dictInsert, dictGet?, h, ih]

theorem dictInsert_keys_of_mem {α : Type} (m : List (String × α)) (k : String) (x y : α)
    (h : dictGet? m k = some y) :
    (dictInsert m k x).map Prod.fst = m.map Prod.fst := by
  induction m with
  | nil => simp [dictGet?] at h
  | cons p m ih =>
    by_cases hp : p.1 = k
    · simp [dictInsert, dictGet?, hp]
    · simp only [dictGet?, beq_iff_eq, hp, if_false, if_neg] at h
      simp [dictInsert, hp, ih h]

theorem maskedVals_eq_nil_iff (img : Frame) (xs ys d : ℕ) :
    maskedVals img xs ys d = [] ↔ maskPoints d = [] := by
  simp [maskedVals]

theorem roiValues_of_maskPoints_nil (v : Viewer) (h : maskPoints v.roiDiameter = []) :
    roiValues v = List.replicate v.images.length none := by
  unfold roiValues
  rw [List.eq_replicate_iff]
  refine ⟨by simp, ?_⟩
  intro b hb
  simp only [List.mem_map] at hb
  obtain ⟨img, _, rfl⟩ := hb
  simp [maskedVals, h]

theorem roiValues_isSome (v : Viewer) (h : maskPoints v.roiDiameter ≠ []) :
    ∀ x ∈ roiValues v, x ≠ none := by
  intro x hx
  unfold roiValues at hx
  simp only [List.mem_map] at hx
  obtain ⟨img, _, rfl⟩ := hx
  simp [maskedVals, h]

theorem filterMap_id_replicate_none {α : Type} (n : ℕ) :
    (List.replicate n (none : Option α)).filterMap id = [] := by
  induction n with
  | zero => rfl
  | succ n ih => simp [List.replicate_succ, ih]

theorem pyInt_add_half_gt (c : ℚ) (d : ℕ) (W : ℤ) (hW : 0 ≤ W)
    (h : W < pyInt (c + (d : ℚ) / 2)) :
    pyInt (c - (d : ℚ) / 2) < 0 ∨ W < pyInt (c - (d : ℚ) / 2) + (d : ℤ) := by
  set a : ℚ := c - (d : ℚ) / 2 with ha
  have hsum : c + (d : ℚ) / 2 = a + (d : ℕ) := by rw [ha]; ring
  rw [hsum] at h
  rcases le_or_lt 0 a with h0 | h0
  · right
    have h1 : pyInt (a + (d : ℕ)) = ⌊a⌋ + (d : ℤ) := by
      unfold pyInt
      rw [if_pos (by positivity), Int.floor_add_nat]
    have h2 : pyInt a = ⌊a⌋ := by unfold pyInt; rw [if_pos h0]
    rw [h1] at h
    rw [h2]
    exact h
  · rcases le_or_lt a (-1) with h1 | h1
    · left
      have h2 : pyInt a = ⌈a⌉ := by unfold pyInt; rw [if_neg (not_le.mpr h0)]
      have h3 : ⌈a⌉ ≤ ⌈(-1 : ℚ)⌉ := Int.ceil_le_ceil h1
      have h4 : ⌈(-1 : ℚ)⌉ = (-1 : ℤ) := by
        exact_mod_cast Int.ceil_intCast (α := ℚ) (-1)
      rw [h2]
      omega
    · have hceil : ⌈a⌉ = 0 := by
        rw [Int.ceil_eq_iff]
        constructor
        · push_cast; linarith
        · push_cast; linarith
      have h2 : pyInt a = 0 := by unfold pyInt; rw [if_neg (not_le.mpr h0)]; exact hceil
      rcases Nat.eq_zero_or_pos d with hd | hd
      · subst hd
        exfalso
        have : pyInt (a + ((0 : ℕ) : ℚ)) = 0 := by
          push_cast
          simpa using h2
        rw [this] at h
        omega
      · right
        have hfl : ⌊a⌋ = -1 := by
          rw [Int.floor_eq_iff]
          constructor
          · push_cast; linarith
          · push_cast; linarith
        have hnn : (0 : ℚ) ≤ a + (d : ℕ) := by
          have : (1 : ℚ) ≤ (d : ℕ) := by exact_mod_cast hd
          linarith
        have h3 : pyInt (a + (d : ℕ)) = ⌊a⌋ + (d : ℤ) := by
          unfold pyInt
          rw [if_pos hnn, Int.floor_add_nat]
        rw [h3, hfl] at h
        rw [h2]
        omega

theorem windowPixel_mem_range (w l p : ℚ) (hw : 0 < w) :
    0 ≤ windowPixel w l p ∧ windowPixel w l p ≤ 255 := by
  have hwz : (l + w / 2) - (l - w / 2) = w := by ring
  have hne : (l + w / 2) - (l - w / 2) ≠ 0 := by rw [hwz]; exact ne_of_gt hw
  have hn : windowPixel w l p =
      uint8cast ((min (max p (l - w / 2)) (l + w / 2) - (l - w / 2)) /
        ((l + w / 2) - (l - w / 2)) * 255) := by
    show uint8cast (if (l + w / 2) - (l - w / 2) ≠ 0
        then (min (max p (l - w / 2)) (l + w / 2) - (l - w / 2)) /
          ((l + w / 2) - (l - w / 2)) * 255
        else min (max p (l - w / 2)) (l + w / 2) - (l - w / 2)) = _
    rw [if_pos hne]
  set lower := l - w / 2 with hlo
  set upper := l + w / 2 with hup
  set c := min (max p lower) upper with hc
  have hcl : lower ≤ c := by
    apply le_min (le_max_right _ _)
    rw [hlo, hup]; linarith
  have hcu : c ≤ upper := min_le_right _ _
  set n : ℚ := (c - lower) / (upper - lower) * 255 with hndef
  have hn0 : 0 ≤ n := by
    apply mul_nonneg _ (by norm_num)
    apply div_nonneg (by linarith)
    rw [hwz]; exact hw.le
  have hn255 : n ≤ 255 := by
    have hr1 : (c - lower) / (upper - lower) ≤ 1 := by
      rw [div_le_one (by rw [hwz]; exact hw)]
       ; linarith
    calc n ≤ 1 * 255 := by
            rw [hndef]
            exact mul_le_mul_of_nonneg_right hr1 (by norm_num)
      _ = 255 := by norm_num
  have hPy : pyInt n = ⌊n⌋ := by unfold pyInt; rw [if_pos hn0]
  have hfl0 : 0 ≤ ⌊n⌋ := Int.floor_nonneg.mpr hn0
  have hfl255 : ⌊n⌋ ≤ 255 := by
    have : (⌊n⌋ : ℚ) ≤ 255 := (Int.floor_le n).trans hn255
    exact_mod_cast this
  have hcast : uint8cast n = ⌊n⌋ := by
    unfold uint8cast
    rw [hPy]
    exact Int.emod_eq_of_lt hfl0 (by omega)
  rw [hn, hcast]
  exact ⟨hfl0, hfl255⟩

theorem maskMem_corner00 (d : ℕ) (hd : 1 ≤ d) : maskMem d 0 0 = false := by
  unfold maskMem
  simp only [decide_eq_false_iff_not]
  intro h
  have hd' : (1 : ℚ) ≤ (d : ℚ) := by exact_mod_cast hd
  nlinarith [h, hd']

theorem maskMem_iff_dist (d x y : ℕ) :
    maskMem d x y = true ↔
      Real.sqrt (((x : ℝ) - d / 2) ^ 2 + ((y : ℝ) - d / 2) ^ 2) ≤ (d : ℝ) / 2 := by
  rw [Real.sqrt_le_left (by positivity)]
  unfold maskMem
  rw [decide_eq_true_iff]
  rw [show ((x : ℝ) - d / 2) ^ 2 + ((y : ℝ) - d / 2) ^ 2 =
        ((((x : ℚ) - (d : ℚ) / 2) * ((x : ℚ) - (d : ℚ) / 2) +
          ((y : ℚ) - (d : ℚ) / 2) * ((y : ℚ) - (d : ℚ) / 2) : ℚ) : ℝ) from by push_cast; ring,
      show ((d : ℝ) / 2) ^ 2 = (((d : ℚ) / 2 * ((d : ℚ) / 2) : ℚ) : ℝ) from by push_cast; ring]
  exact Iff.symm Rat.cast_le

/-- C1 (amended): when save_roi is invoked with the overlay shown, a
non-empty stripped name, an in-bounds bounding box, and an undefined value
on every slice, the operation fails -- the Python code raises ValueError at
min() of the empty defined-value sequence, there is no NoDefinedValues
handling -- and no table row is written; but the roi_data mapping has
already been updated with the all-undefined entry by line 547, so the
registry is not left unchanged. -/
theorem save_roi_all_undefined (v : Viewer) (hov : v.overlay = true)
    (hname : pyStrip v.roiNameInput ≠ "") (hb : boundsViolated v = false)
    (hall : (roiValues v).filterMap id = []) :
    (save_roi v).1 = .error .aggregateEmpty ∧ (save_roi v).2.table = v.table ∧
      (save_roi v).2.roi_data = dictInsert v.roi_data (pyStrip v.roiNameInput) (roiValues v) := by
  unfold save_roi
  simp [hov, hname, hb, hall]

/-- C1 counterexample: on a two-slice stack with a diameter-1 ROI (empty
mask on every slice) the failed save leaves the roi_data mapping changed:
the all-undefined entry for name A is registered even though the operation
fails, contradicting "the ROI Registry ... is unchanged by the failed
save". -/
theorem save_roi_all_undefined_mutates_registry :
    (save_roi vC1).1 = .error .aggregateEmpty ∧
      (save_roi vC1).2.roi_data = [("A", [none, none])] ∧
      (save_roi vC1).2.roi_data ≠ vC1.roi_data := by decide

/-- Witness for the amended C1 theorem at the concrete state vC1. -/
theorem save_roi_all_undefined_witness :
    (vC1.overlay = true ∧ pyStrip vC1.roiNameInput ≠ "" ∧ boundsViolated vC1 = false ∧
      (roiValues vC1).filterMap id = []) ∧
    ((save_roi vC1).1 = .error .aggregateEmpty ∧ (save_roi vC1).2.table = vC1.table ∧
      (save_roi vC1).2.roi_data = dictInsert vC1.roi_data (pyStrip vC1.roiNameInput) (roiValues vC1)) :=
  ⟨⟨by decide, by decide, by decide, by decide⟩,
    save_roi_all_undefined vC1 (by decide) (by decide) (by decide) (by decide)⟩

/-- C2 counterexample: the export row for an ROI named Bone with per-slice
values [10.0, NaN, 30.0] is not the claimed
Bone,10.00,30.00,20.00,10.00,NaN,30.00 -- the min/max/difference columns are
written with str(), not with two decimal places. -/
theorem csv_row_not_two_decimals :
    saveRow "Bone" [some 10, none, some 30] ≠
      ["Bone", "10.00", "30.00", "20.00", "10.00", "NaN", "30.00"] := by decide

/-- C2 (amended): the Bone row actually exported is
Bone,10.0,30.0,20.0,10.00,NaN,30.00 -- per-slice cells are formatted to two
decimal places with undefined cells as the literal NaN, while the
min/max/difference cells go through Python str(); in general the per-slice
cells of any row are exactly the cellStr renderings of the values. -/
theorem csv_row_bone :
    saveRow "Bone" [some 10, none, some 30] =
      ["Bone", "10.0", "30.0", "20.0", "10.00", "NaN", "30.00"] ∧
      save_to_csv vC2 =
        [["Name", "Min Value", "Max Value", "Difference", "Slice0", "Slice1", "Slice2"],
          ["Bone", "10.0", "30.0", "20.0", "10.00", "NaN", "30.00"]] ∧
      ∀ (name : String) (vals : List (Option ℚ)),
        (saveRow name vals).drop 4 = vals.map cellStr :=
  ⟨by decide, by decide, fun name vals => rfl⟩

/-- Witness for the C2 theorem: its general per-slice clause applied at a
concrete row. -/
theorem csv_row_bone_witness :
    (saveRow "X" [some 1]).drop 4 = [some (1 : ℚ)].map cellStr :=
  csv_row_bone.2.2 "X" [some 1]

/-- C3 (amended): ROI statistics are not computed on the subtraction
difference: analyze_roi and the registry effects of save_roi are invariant
under any change of the subtraction selection, because both read the raw
frames only (dirt.py lines 468 and 526); subtraction affects only display
and auto-window. -/
theorem roi_stats_ignore_subtraction (v : Viewer) (s : ℤ) :
    analyze_roi { v with subtractionIndex := s } = analyze_roi v ∧
      (save_roi { v with subtractionIndex := s }).1 = (save_roi v).1 ∧
      (save_roi { v with subtractionIndex := s }).2.roi_data = (save_roi v).2.roi_data ∧
      (save_roi { v with subtractionIndex := s }).2.table = (save_roi v).2.table := by
  obtain ⟨im, cs, sub, wv, lv, ov, nm, cx, cy, dm, rd, tb⟩ := v
  refine ⟨rfl, ?_, ?_, ?_⟩ <;>
    simp only [save_roi, boundsViolated, roiValues, Viewer.height, Viewer.width,
      apply_ite Prod.fst, apply_ite Prod.snd, apply_ite Viewer.roi_data, apply_ite Viewer.table]

/-- C3 counterexample: at state vC3 the subtraction selection is valid
(image 1), yet analyze_roi returns the raw-slice statistics (3, 1, 2) and
not the statistics (3, -9, 12) of the difference image that the
spec-modelled subtracted variant computes. -/
theorem analyze_roi_ignores_subtraction_concrete :
    analyze_roi vC3 = .ok (3, 1, 2) ∧
      analyze_roi_subtractedSpec vC3 = .ok (3, -9, 12) ∧
      analyze_roi vC3 ≠ analyze_roi_subtractedSpec vC3 := by decide

/-- Witness for the C3 theorem at the concrete state vC3. -/
theorem roi_stats_ignore_subtraction_witness :
    analyze_roi { vC3 with subtractionIndex := -1 } = analyze_roi vC3 ∧
      (save_roi { vC3 with subtractionIndex := -1 }).1 = (save_roi vC3).1 ∧
      (save_roi { vC3 with subtractionIndex := -1 }).2.roi_data = (save_roi vC3).2.roi_data ∧
      (save_roi { vC3 with subtractionIndex := -1 }).2.table = (save_roi vC3).2.table :=
  roi_stats_ignore_subtraction vC3 (-1)

/-- C4: whenever the integer-truncated bounding box
[center.x - r, center.x + r) x [center.y - r, center.y + r) exceeds the
frame on any side, both analyze_roi and save_roi (invoked with the overlay
shown and a non-empty name) fail with OutOfBounds and change no state: the
save returns the viewer unchanged, so no registry entry and no table row is
added. -/
theorem roi_out_of_bounds_rejected (v : Viewer) (hov : v.overlay = true)
    (hname : pyStrip v.roiNameInput ≠ "") (hex : claimBoxExceeds v) :
    analyze_roi v = .error .outOfBounds ∧ save_roi v = (.error .outOfBounds, v) := by
  have hb : boundsViolated v = true := by
    unfold claimBoxExceeds at hex
    unfold boundsViolated
    simp only [Bool.or_eq_true, decide_eq_true_eq]
    rcases hex with h | h | h | h
    · omega
    · omega
    · rcases pyInt_add_half_gt v.roiCenterX v.roiDiameter (v.width : ℤ)
        (Int.natCast_nonneg _) h with h' | h' <;> omega
    · rcases pyInt_add_half_gt v.roiCenterY v.roiDiameter (v.height : ℤ)
        (Int.natCast_nonneg _) h with h' | h' <;> omega
  constructor
  · unfold analyze_roi
    simp [hov, hb]
  · unfold save_roi
    simp [hov, hname, hb]

/-- Witness for the C4 theorem at the concrete state of the claim: a
256x256 frame, ROI center (10,128), diameter 50. -/
theorem roi_out_of_bounds_rejected_witness :
    (vC4.overlay = true ∧ pyStrip vC4.roiNameInput ≠ "" ∧ claimBoxExceeds vC4) ∧
      (analyze_roi vC4 = .error .outOfBounds ∧ save_roi vC4 = (.error .outOfBounds, vC4)) :=
  ⟨⟨by decide, by decide, by decide⟩,
    roi_out_of_bounds_rejected vC4 (by decide) (by decide) (by decide)⟩

/-- C5: for every viewer state whose window slider value is positive, every
pixel of the rendered display_slice image lies in the integer range
[0, 255]. -/
theorem display_transform_range (v : Viewer) (hw : 0 < v.windowVal) :
    ∀ row ∈ display_slice v, ∀ q ∈ row, 0 ≤ q ∧ q ≤ 255 := by
  intro row hrow q hq
  unfold display_slice at hrow
  simp only [List.mem_map] at hrow
  obtain ⟨r0, _, rfl⟩ := hrow
  simp only [List.mem_map] at hq
  obtain ⟨p, _, rfl⟩ := hq
  exact windowPixel_mem_range _ _ _ (by exact_mod_cast hw)

/-- Witness for the C5 theorem at the concrete state vC5. -/
theorem display_transform_range_witness :
    0 < vC5.windowVal ∧ ∀ row ∈ display_slice vC5, ∀ q ∈ row, 0 ≤ q ∧ q ≤ 255 :=
  ⟨by decide, display_transform_range vC5 (by decide)⟩

/-- C6 counterexample: on the three-slice stack vC6 a slice's evaluation
yields EmptyMask, yet the claim's description fails: every slice (not only
that slice) records the undefined sentinel, and the save does abort -- it
ends in the empty-aggregate error (the Python ValueError from min()), with
the all-undefined entry already registered. -/
theorem save_roi_empty_mask_aborts :
    (save_roi vC6).1 = .error .aggregateEmpty ∧
      dictGet? (save_roi vC6).2.roi_data "A" = some [none, none, none] := by decide

/-- C6 (amended): mask emptiness depends only on the ROI geometry, never on
the slice contents, so the per-slice values of a save are all defined or
all undefined: a stack where only slice 1 yields EmptyMask cannot occur. -/
theorem roiValues_all_or_nothing (v : Viewer) :
    roiValues v = List.replicate v.images.length none ∨ ∀ x ∈ roiValues v, x ≠ none := by
  by_cases h : maskPoints v.roiDiameter = []
  · exact Or.inl (roiValues_of_maskPoints_nil v h)
  · exact Or.inr (roiValues_isSome v h)

/-- Witness for the C6 theorem at the concrete state vC6. -/
theorem roiValues_all_or_nothing_witness :
    roiValues vC6 = List.replicate vC6.images.length none ∨ ∀ x ∈ roiValues vC6, x ≠ none :=
  roiValues_all_or_nothing vC6

/-- C7 counterexample: for diameter 2 the bounding-box corner offsets
(1,0), (0,1) and (1,1) -- three of the four box corners -- are all selected
by the circular mask, refuting "the four box corners are never included
(for d >= 1)". -/
theorem mask_corners_included_d2 :
    maskMem 2 1 1 = true ∧ maskMem 2 0 1 = true ∧ maskMem 2 1 0 = true := by decide

/-- C7 (amended): a pixel offset (x, y) of the bounding box is in the mask
iff its Euclidean distance from the box-center (r, r) is at most r = d/2;
the corner (0,0) is never included for d >= 1; and the pixel count
approximates pi (d/2)^2 (79 pixels for d = 10, against pi 25 = 78.5); but
the remaining corners can be included for small d (see the
counterexample). -/
theorem roi_mask_geometry :
    (∀ d x y : ℕ, maskMem d x y = true ↔
        Real.sqrt (((x : ℝ) - d / 2) ^ 2 + ((y : ℝ) - d / 2) ^ 2) ≤ (d : ℝ) / 2) ∧
      (∀ d : ℕ, 1 ≤ d → maskMem d 0 0 = false) ∧
      (maskPoints 10).length = 79 :=
  ⟨maskMem_iff_dist, maskMem_corner00, by decide⟩

/-- Witness for the C7 theorem: its corner clause applied at diameter 5. -/
theorem roi_mask_geometry_witness : maskMem 5 0 0 = false :=
  roi_mask_geometry.2.1 5 (by norm_num)

/-- C8 counterexample: at the state vC8 the subtraction index is valid and
the absolute difference values are [1, 2], whose 5th/95th percentiles give
the exact value 2 * max(p95, |p5|) = 3.9; but auto_window stores the
int()-truncated slider value 3, so the window is not set to the exact value
as the claim states. -/
theorem auto_window_truncates :
    (auto_window vC8).windowVal = 3 ∧
      2 * max (percentile (absDiffVals vC8) 95) |percentile (absDiffVals vC8) 5| = 39 / 10 ∧
      ((3 : ℤ) : ℚ) ≠ 39 / 10 :=
  ⟨by decide, by decide, by norm_num⟩

/-- C8 (amended): auto-window in subtraction mode with a valid subtraction
index sets the level slider to 0 exactly and the window slider to the
int()-truncated, slider-clamped value of 2 * max(p95, |p5|) of the absolute
difference image, rather than to the exact real value. -/
theorem auto_window_subtraction (v : Viewer) (h0 : 0 ≤ v.subtractionIndex)
    (_hN : v.subtractionIndex < (v.images.length : ℤ)) :
    (auto_window v).levelVal = 0 ∧
      (auto_window v).windowVal =
        sliderSet 1 4096 (pyInt (2 * max (percentile (absDiffVals v) 95)
          |percentile (absDiffVals v) 5|)) := by
  unfold auto_window
  rw [if_pos h0]
  refine ⟨?_, rfl⟩
  show sliderSet (-4096) 4096 (pyInt 0) = 0
  decide

/-- Witness for the C8 theorem at the concrete state vC8. -/
theorem auto_window_subtraction_witness :
    (0 ≤ vC8.subtractionIndex ∧ vC8.subtractionIndex < (vC8.images.length : ℤ)) ∧
      ((auto_window vC8).levelVal = 0 ∧
        (auto_window vC8).windowVal =
          sliderSet 1 4096 (pyInt (2 * max (percentile (absDiffVals vC8) 95)
            |percentile (absDiffVals vC8) 5|))) :=
  ⟨⟨by decide, by decide⟩, auto_window_subtraction vC8 (by decide) (by decide)⟩

/-- C9: saving under a name already present in roi_data succeeds with no
rejection or warning, silently overwrites the mapping entry -- afterwards
the mapping holds exactly the newly computed per-slice values under that
name -- and adds no new key, so mapping names stay unique. -/
theorem save_roi_overwrites_duplicate (v : Viewer) (old : List (Option ℚ))
    (hov : v.overlay = true) (hname : pyStrip v.roiNameInput ≠ "")
    (hb : boundsViolated v = false) (hmask : maskPoints v.roiDiameter ≠ [])
    (himg : v.images ≠ [])
    (hdup : dictGet? v.roi_data (pyStrip v.roiNameInput) = some old) :
    (save_roi v).1 = .ok () ∧
      dictGet? (save_roi v).2.roi_data (pyStrip v.roiNameInput) = some (roiValues v) ∧
      (save_roi v).2.roi_data.map Prod.fst = v.roi_data.map Prod.fst := by
  have hne : roiValues v ≠ [] := by
    unfold roiValues
    simp [himg]
  have hdef : (roiValues v).filterMap id ≠ [] := by
    intro hnil
    rw [List.filterMap_eq_nil_iff] at hnil
    obtain ⟨x, hx⟩ := List.exists_mem_of_ne_nil _ hne
    exact roiValues_isSome v hmask x hx (hnil x hx)
  refine ⟨?_, ?_, ?_⟩
  · unfold save_roi
    simp [hov, hname, hb, hdef]
  · unfold save_roi
    simp [hov, hname, hb, hdef, dictGet?_insert_self]
  · unfold save_roi
    simp only [hov, Bool.true_eq_false, if_false, if_neg hname, hb, if_neg hdef]
    exact dictInsert_keys_of_mem _ _ _ _ hdup

/-- Witness for the C9 theorem at the concrete state vC9, whose registry
already holds an entry named R. -/
theorem save_roi_overwrites_duplicate_witness :
    (vC9.overlay = true ∧ pyStrip vC9.roiNameInput ≠ "" ∧ boundsViolated vC9 = false ∧
      maskPoints vC9.roiDiameter ≠ [] ∧ vC9.images ≠ [] ∧
      dictGet? vC9.roi_data (pyStrip vC9.roiNameInput) = some [some 1]) ∧
    ((save_roi vC9).1 = .ok () ∧
      dictGet? (save_roi vC9).2.roi_data (pyStrip vC9.roiNameInput) = some (roiValues vC9) ∧
      (save_roi vC9).2.roi_data.map Prod.fst = vC9.roi_data.map Prod.fst) :=
  ⟨⟨by decide, by decide, by decide, by decide, by decide, by decide⟩,
    save_roi_overwrites_duplicate vC9 [some 1] (by decide) (by decide) (by decide)
      (by decide) (by decide) (by decide)⟩

/-- C10: with diameter exactly 1 the circular mask is empty (the only
candidate offset (0,0) lies at distance sqrt(0.5) > 0.5 from the box-center
(0.5, 0.5)), so for any in-bounds named ROI, analyze_roi fails with
EmptyMask and save_roi records the undefined sentinel for every slice of
the stack in roi_data. -/
theorem diameter_one_always_empty (v : Viewer) (hd : v.roiDiameter = 1)
    (hov : v.overlay = true) (hb : boundsViolated v = false)
    (hname : pyStrip v.roiNameInput ≠ "") :
    analyze_roi v = .error .emptyMask ∧
      dictGet? (save_roi v).2.roi_data (pyStrip v.roiNameInput) =
        some (List.replicate v.images.length none) := by
  have hmp : maskPoints v.roiDiameter = [] := by rw [hd]; decide
  have hrv : roiValues v = List.replicate v.images.length none :=
    roiValues_of_maskPoints_nil v hmp
  constructor
  · unfold analyze_roi
    simp [hov, hb, maskedVals, hmp]
  · unfold save_roi
    simp [hov, hname, hb, hrv, filterMap_id_replicate_none, dictGet?_insert_self]

/-- Witness for the C10 theorem at the concrete state vC10. -/
theorem diameter_one_always_empty_witness :
    (vC10.roiDiameter = 1 ∧ vC10.overlay = true ∧ boundsViolated vC10 = false ∧
      pyStrip vC10.roiNameInput ≠ "") ∧
    (analyze_roi vC10 = .error .emptyMask ∧
      dictGet? (save_roi vC10).2.roi_data (pyStrip vC10.roiNameInput) =
        some (List.replicate vC10.images.length none)) :=
  ⟨⟨by decide, by decide, by decide, by decide⟩,
    diameter_one_always_empty vC10 (by decide) (by decide) (by decide) (by decide)⟩
